import Mathlib

/-!
# Verification of the category classifier and tokenization allocator

Shallow embedding of `src/routes/tokenization_categories.py` and
`src/routes/specialized_tokenization.py` of the big-ip-machine-v2.0
repository.

Modelling conventions:
* Python `float` arithmetic is modelled over `ℚ` (all constants in the source
  are small decimal literals, written here as exact rationals).
* Python `round(x, n)` (banker's rounding) is modelled by `roundTo`
  with round-half-to-even.
* Python dicts with static literal keys are modelled as association lists in
  source order; `dict.get`/key lookup becomes `List.find?` in the same order.
* Display-only fields of the tables (`name`, `description` strings) and the
  wall-clock `created_timestamp` field are omitted: no computation reads them.
* The per-category tokenizer methods of `SpecializedTokenizer` all run the
  same loop body over their category's structure, differing only in the
  bucket-name → quality-factor multiplier rule; that shared loop body is the
  function `tokenizeWith`, and each `tokenize_*` method instantiates it with
  its own multiplier rule, exactly as the source's repeated loop does.
* The `random.uniform` "quality factors" are inputs (universally quantified),
  one record field per factor drawn by the source.
-/

set_option maxRecDepth 10000

namespace BigIpMachine

/-! ## String helpers mirroring the Python `str` operations used -/

/-- Substring test: `needle` occurs contiguously in the haystack
(Python `kw in text`). -/
def occursIn (needle : List Char) : List Char → Bool
  | [] => needle.isEmpty
  | c :: rest => needle.isPrefixOf (c :: rest) || occursIn needle rest

/-- Python `str.lower()` (inputs in this codebase are ASCII). -/
def strLower (s : String) : String := ⟨s.data.map Char.toLower⟩

/-- Python `str.lstrip('.')`. -/
def lstripDots (s : String) : String := ⟨s.data.dropWhile (fun c => c == '.')⟩

/-- ASCII whitespace, as stripped by Python `str.strip()`. -/
def isPySpace (c : Char) : Bool :=
  c == ' ' || c == '\t' || c == '\n' || c == '\r' || c == Char.ofNat 11 || c == Char.ofNat 12

/-- Python `str.strip()` on a character list. -/
def stripEnds (l : List Char) : List Char :=
  ((l.dropWhile isPySpace).reverse.dropWhile isPySpace).reverse

/-! ## Rounding, mirroring Python `round(x, ndigits)` (round half to even) -/

/-- Round a rational to the nearest integer, ties to the even integer. -/
def roundHalfEven (q : ℚ) : ℤ :=
  let n := ⌊q⌋
  let r := q - n
  if r < 1/2 then n
  else if 1/2 < r then n + 1
  else if n % 2 = 0 then n else n + 1

/-- Python `round(q, ndigits)` for `ndigits ≥ 0`. -/
def roundTo (ndigits : ℕ) (q : ℚ) : ℚ :=
  (roundHalfEven (q * (10 : ℚ) ^ ndigits) : ℚ) / (10 : ℚ) ^ ndigits

def round2 (q : ℚ) : ℚ := roundTo 2 q

def round3 (q : ℚ) : ℚ := roundTo 3 q

/-! ## The static category table (`CONTENT_CATEGORIES`) -/

/-- One rights bucket of a category's `tokenization_structure`
(description string omitted: display only). -/
structure BucketSpec where
  percentage : ℕ
  base_value : ℚ
deriving DecidableEq

/-- One entry of `CONTENT_CATEGORIES` (name/description omitted: display
only). -/
structure Category where
  file_types : List String
  tokenization_structure : List (String × BucketSpec)
deriving DecidableEq

/-- `CONTENT_CATEGORIES` from `tokenization_categories.py`, in source
(insertion) order. -/
def CONTENT_CATEGORIES : List (String × Category) := [
  ("film",
    { file_types := ["mp4", "mov", "avi", "mkv", "wmv"]
      tokenization_structure := [
        ("cinematography_rights", ⟨25, 60⟩),
        ("audio_soundtrack_rights", ⟨20, 45⟩),
        ("narrative_story_rights", ⟨20, 50⟩),
        ("character_performance_rights", ⟨15, 40⟩),
        ("production_design_rights", ⟨10, 35⟩),
        ("distribution_licensing_rights", ⟨10, 30⟩)] }),
  ("animation",
    { file_types := ["mp4", "mov", "gif", "webm"]
      tokenization_structure := [
        ("animation_artistry_rights", ⟨30, 55⟩),
        ("character_design_rights", ⟨25, 50⟩),
        ("story_concept_rights", ⟨20, 45⟩),
        ("audio_design_rights", ⟨15, 35⟩),
        ("technical_innovation_rights", ⟨10, 40⟩)] }),
  ("screenplay",
    { file_types := ["pdf", "txt", "doc", "docx", "rtf"]
      tokenization_structure := [
        ("dialogue_rights", ⟨30, 45⟩),
        ("plot_structure_rights", ⟨25, 50⟩),
        ("character_development_rights", ⟨20, 40⟩),
        ("scene_description_rights", ⟨15, 35⟩),
        ("adaptation_rights", ⟨10, 55⟩)] }),
  ("book_writing",
    { file_types := ["pdf", "txt", "doc", "docx", "epub"]
      tokenization_structure := [
        ("narrative_prose_rights", ⟨35, 50⟩),
        ("plot_concept_rights", ⟨25, 45⟩),
        ("character_creation_rights", ⟨20, 40⟩),
        ("world_building_rights", ⟨10, 35⟩),
        ("publishing_adaptation_rights", ⟨10, 60⟩)] }),
  ("digital_art",
    { file_types := ["jpg", "jpeg", "png", "gif", "bmp", "tiff", "webp"]
      tokenization_structure := [
        ("artistic_composition_rights", ⟨40, 55⟩),
        ("concept_originality_rights", ⟨25, 50⟩),
        ("technical_execution_rights", ⟨20, 45⟩),
        ("commercial_usage_rights", ⟨15, 65⟩)] }),
  ("photography",
    { file_types := ["jpg", "jpeg", "png", "raw", "tiff"]
      tokenization_structure := [
        ("photographic_composition_rights", ⟨35, 50⟩),
        ("subject_capture_rights", ⟨25, 45⟩),
        ("technical_photography_rights", ⟨20, 40⟩),
        ("post_processing_rights", ⟨10, 35⟩),
        ("commercial_licensing_rights", ⟨10, 70⟩)] }),
  ("music_composition",
    { file_types := ["mp3", "wav", "aac", "flac", "ogg", "m4a"]
      tokenization_structure := [
        ("melody_composition_rights", ⟨30, 55⟩),
        ("lyrical_content_rights", ⟨25, 45⟩),
        ("arrangement_production_rights", ⟨20, 50⟩),
        ("performance_rights", ⟨15, 60⟩),
        ("synchronization_rights", ⟨10, 75⟩)] }),
  ("podcast_audio",
    { file_types := ["mp3", "wav", "aac", "m4a"]
      tokenization_structure := [
        ("content_creation_rights", ⟨35, 40⟩),
        ("host_personality_rights", ⟨25, 35⟩),
        ("production_quality_rights", ⟨20, 30⟩),
        ("format_concept_rights", ⟨10, 45⟩),
        ("distribution_syndication_rights", ⟨10, 50⟩)] }),
  ("software_code",
    { file_types := ["py", "js", "html", "css", "java", "cpp", "zip"]
      tokenization_structure := [
        ("algorithm_logic_rights", ⟨35, 60⟩),
        ("user_interface_rights", ⟨25, 45⟩),
        ("architecture_design_rights", ⟨20, 55⟩),
        ("innovation_patent_rights", ⟨10, 80⟩),
        ("commercial_licensing_rights", ⟨10, 70⟩)] }),
  ("video_games",
    { file_types := ["exe", "apk", "ipa", "unity", "unreal", "zip", "rar", "mp4", "mov"]
      tokenization_structure := [
        ("visual_art_assets_rights", ⟨25, 55⟩),
        ("audio_music_rights", ⟨15, 50⟩),
        ("sound_effects_rights", ⟨10, 40⟩),
        ("narrative_story_rights", ⟨15, 45⟩),
        ("gameplay_mechanics_rights", ⟨20, 60⟩),
        ("code_programming_rights", ⟨10, 65⟩),
        ("distribution_licensing_rights", ⟨5, 75⟩)] })]

/-- `get_category_by_file_extension`: first category whose `file_types`
contain the normalized extension, else `digital_art`. -/
def get_category_by_file_extension (file_extension : String) : String :=
  let file_ext := lstripDots (strLower file_extension)
  match CONTENT_CATEGORIES.find? (fun c => c.2.file_types.contains file_ext) with
  | some c => c.1
  | none => "digital_art"

/-- `get_category_tokenization_structure`: the category's structure, with
silent fallback to `digital_art` for unknown ids. -/
def get_category_tokenization_structure (category_id : String) : List (String × BucketSpec) :=
  match CONTENT_CATEGORIES.find? (fun c => c.1 == category_id) with
  | some c => c.2.tokenization_structure
  | none =>
      match CONTENT_CATEGORIES.find? (fun c => c.1 == "digital_art") with
      | some c => c.2.tokenization_structure
      | none => []

/-! ## The classifier (`enhanced_auto_detect_category`) -/

/-- One entry of the classifier's internal `keyword_patterns` table. -/
structure KeywordPattern where
  id : String
  keywords : List String
  file_types : List String
  confidence_boost : ℚ
deriving DecidableEq

def filmPattern : KeywordPattern :=
  { id := "film"
    keywords := ["movie", "film", "cinema", "documentary", "feature", "short film", "trailer", "scene"]
    file_types := ["mp4", "mov", "avi", "mkv", "wmv", "m4v", "flv"]
    confidence_boost := 15/100 }

def screenplayPattern : KeywordPattern :=
  { id := "screenplay"
    keywords := ["screenplay", "script", "dialogue", "scene", "act", "fade in", "fade out", "treatment"]
    file_types := ["pdf", "txt", "doc", "docx", "rtf", "fountain"]
    confidence_boost := 20/100 }

def musicPattern : KeywordPattern :=
  { id := "music"
    keywords := ["song", "music", "track", "album", "beat", "melody", "audio", "sound"]
    file_types := ["mp3", "wav", "flac", "aac", "m4a", "ogg"]
    confidence_boost := 18/100 }

def bookWritingPattern : KeywordPattern :=
  { id := "book_writing"
    keywords := ["book", "novel", "chapter", "story", "manuscript", "literature", "writing", "text"]
    file_types := ["pdf", "txt", "doc", "docx", "epub", "rtf"]
    confidence_boost := 16/100 }

def digitalArtPattern : KeywordPattern :=
  { id := "digital_art"
    keywords := ["art", "design", "illustration", "graphic", "visual", "artwork", "drawing", "painting"]
    file_types := ["jpg", "jpeg", "png", "gif", "bmp", "svg", "psd", "ai"]
    confidence_boost := 14/100 }

def photographyPattern : KeywordPattern :=
  { id := "photography"
    keywords := ["photo", "photograph", "image", "picture", "shot", "portrait", "landscape"]
    file_types := ["jpg", "jpeg", "png", "raw", "tiff", "cr2", "nef"]
    confidence_boost := 17/100 }

def animationPattern : KeywordPattern :=
  { id := "animation"
    keywords := ["animation", "animated", "cartoon", "motion", "frame", "tween", "3d", "2d"]
    file_types := ["mp4", "mov", "gif", "avi", "mkv", "swf"]
    confidence_boost := 19/100 }

def gamingPattern : KeywordPattern :=
  { id := "gaming"
    keywords := ["game", "gaming", "level", "character", "gameplay", "interactive", "unity", "unreal"]
    file_types := ["exe", "apk", "ipa", "unity", "unreal", "zip"]
    confidence_boost := 13/100 }

def softwarePattern : KeywordPattern :=
  { id := "software"
    keywords := ["app", "software", "program", "code", "application", "tool", "utility"]
    file_types := ["exe", "dmg", "apk", "ipa", "zip", "tar", "gz"]
    confidence_boost := 12/100 }

/-- The `keyword_patterns` table of `enhanced_auto_detect_category`, in
source (insertion) order. -/
def keyword_patterns : List KeywordPattern :=
  [filmPattern, screenplayPattern, musicPattern, bookWritingPattern, digitalArtPattern,
   photographyPattern, animationPattern, gamingPattern, softwarePattern]

/-- The "strongly contradicts" test of the penalty rule. -/
def strongContradiction (file_ext : String) (category_id : String) : Bool :=
  let video_types := ["mp4", "mov", "avi", "mkv", "wmv"]
  let text_types := ["pdf", "txt", "doc", "docx"]
  let audio_types := ["mp3", "wav", "flac", "aac"]
  (video_types.contains file_ext &&
    (category_id == "screenplay" || category_id == "book_writing")) ||
  (text_types.contains file_ext &&
    (category_id == "film" || category_id == "music" || category_id == "animation")) ||
  (audio_types.contains file_ext &&
    (category_id == "film" || category_id == "digital_art" || category_id == "photography"))

/-- The per-category score of the classifier's loop body: extension base
score, per-keyword weights, match boost, contradiction penalty, clamp at 1. -/
def scoreFor (file_ext : String) (text : List Char) (p : KeywordPattern) : ℚ :=
  let base : ℚ := if p.file_types.contains file_ext then 2/5 else 0
  let acc := p.keywords.foldl
    (fun acc kw =>
      if occursIn kw.toList text then (acc.1 + 1, acc.2 + (1/10 + (kw.length : ℚ) * (1/100)))
      else acc)
    ((0 : ℕ), base)
  let s1 := if 0 < acc.1 then acc.2 + p.confidence_boost + min ((acc.1 : ℚ) * (1/20)) (1/5)
            else acc.2
  let s2 := if 0 < acc.1 ∧ p.file_types.contains file_ext = false then
              (if strongContradiction file_ext p.id then s1 * (3/10) else s1 * (7/10))
            else s1
  min s2 1

/-- The combined lowercased `"filename title"` search text
(`text_to_analyze`). -/
def analyzedText (filename content_title : String) : List Char :=
  stripEnds ((strLower filename).data ++ ' ' :: (strLower content_title).data)

/-- All nine per-category scores, in table order (`category_scores`). -/
def category_scores (file_ext : String) (text : List Char) : List (String × ℚ) :=
  keyword_patterns.map (fun p => (p.id, scoreFor file_ext text p))

/-- Python `max(items, key=...)`: the first item with maximal value
(replacement only on strictly greater). -/
def bestOf (x : String × ℚ) (l : List (String × ℚ)) : String × ℚ :=
  l.foldl (fun b y => if b.2 < y.2 then y else b) x

/-- The classifier's result method tag. The source stores the strings
`'enhanced_keyword_analysis'`, `'file_extension_fallback'` and
`'default_fallback'`; the spec's enum calls the first `keyword_analysis`. -/
inductive DetectionMethod where
  | enhanced_keyword_analysis
  | file_extension_fallback
  | default_fallback
deriving DecidableEq

structure ClassificationResult where
  category : String
  confidence : ℚ
  method : DetectionMethod
  detected_keywords : List String
  all_scores : List (String × ℚ)
deriving DecidableEq

/-- The tail of `enhanced_auto_detect_category` after the scores are
computed: the `if category_scores:` test, best-score selection, the
low-confidence extension fallback, and the ultimate default fallback. -/
def pickResult (file_extension : String) (text : List Char)
    (scores : List (String × ℚ)) : ClassificationResult :=
  match scores with
  | [] =>
      { category := "digital_art", confidence := 75/100,
        method := .default_fallback, detected_keywords := [], all_scores := [] }
  | x :: rest =>
      let best := bestOf x rest
      if best.2 < 3/10 then
        { category := get_category_by_file_extension file_extension, confidence := 85/100,
          method := .file_extension_fallback, detected_keywords := [],
          all_scores := x :: rest }
      else
        let matched :=
          match keyword_patterns.find? (fun p => p.id == best.1) with
          | some wp => wp.keywords.filter (fun kw => occursIn kw.toList text)
          | none => []
        { category := best.1, confidence := min (best.2 + 1/20) (98/100),
          method := .enhanced_keyword_analysis, detected_keywords := matched,
          all_scores := x :: rest }

/-- `enhanced_auto_detect_category(filename, file_extension, content_title)`. -/
def enhanced_auto_detect_category (filename file_extension content_title : String) :
    ClassificationResult :=
  let file_ext := lstripDots (strLower file_extension)
  let text := analyzedText filename content_title
  pickResult file_extension text (category_scores file_ext text)

/-! ## The allocator (`SpecializedTokenizer`, `specialized_tokenization.py`) -/

/-- `analysis.get('originality_score', 90) / 100`: the analysis dict is used
only through this key, so it is modelled as `Option ℚ`. -/
def origFactor (analysis : Option ℚ) : ℚ := analysis.getD 90 / 100

/-- `int(self.total_tokens * details['percentage'] / 100)` with
`total_tokens = 1000`; exact for the integer percentages of the table. -/
def tokenCount (pct : ℕ) : ℤ := ((1000 * pct) / 100 : ℕ)

/-- One entry of the produced `token_categories` dict (description string
omitted: display only; `category_factors` kept as the two rounded fields). -/
structure TokenBucket where
  token_count : ℤ
  token_value_usd : ℚ
  total_value_usd : ℚ
  available_tokens : ℤ
  sold_tokens : ℤ
  originality_factor_rounded : ℚ
  value_multiplier_rounded : ℚ
deriving DecidableEq

/-- The loop body shared by every `tokenize_*` method: count, value,
rounding, availability and the rounded factors. -/
def mkBucket (pct : ℕ) (base : ℚ) (orig : ℚ) (mult : ℚ) : TokenBucket :=
  let count := tokenCount pct
  let token_value := base * orig * mult
  { token_count := count
    token_value_usd := round2 token_value
    total_value_usd := round2 (token_value * count)
    available_tokens := count
    sold_tokens := 0
    originality_factor_rounded := round3 orig
    value_multiplier_rounded := round3 mult }

/-- The allocation record (`_create_base_tokenization` plus the filled
`token_categories`; the wall-clock `created_timestamp` is omitted). -/
structure TokenAllocation where
  content_id : String
  content_category : String
  total_tokens : ℤ
  token_categories : List (String × TokenBucket)
  originality_factor : ℚ
  version : String
deriving DecidableEq

/-- `_create_base_tokenization`. -/
def createBaseTokenization (content_id category : String) (analysis : Option ℚ) :
    TokenAllocation :=
  { content_id := content_id
    content_category := category
    total_tokens := 1000
    token_categories := []
    originality_factor := origFactor analysis
    version := "1.1" }

/-- The common shape of every `tokenize_*` method: base record plus one
bucket per entry of the category's structure, with a category-specific
bucket-name → multiplier rule `mult`. -/
def tokenizeWith (content_id category : String) (analysis : Option ℚ)
    (mult : String → ℚ) : TokenAllocation :=
  let struct := get_category_tokenization_structure category
  let orig := origFactor analysis
  { createBaseTokenization content_id category analysis with
      token_categories :=
        struct.map (fun y => (y.1, mkBucket y.2.percentage y.2.base_value orig (mult y.1))) }

/-- The `random.uniform` draws of `tokenize_film`, as inputs. -/
structure FilmFactors where
  production_quality : ℚ
  narrative_complexity : ℚ
  technical_innovation : ℚ
  commercial_potential : ℚ
deriving DecidableEq

/-- The `random.uniform` draws of `tokenize_animation`, as inputs. -/
structure AnimationFactors where
  artistic_style : ℚ
  animation_quality : ℚ
  character_appeal : ℚ
  technical_complexity : ℚ
deriving DecidableEq

/-- The `random.uniform` draws of `tokenize_screenplay`, as inputs. -/
structure ScreenplayFactors where
  dialogue_quality : ℚ
  plot_originality : ℚ
  character_depth : ℚ
  adaptation_potential : ℚ
deriving DecidableEq

/-- The `random.uniform` draws of `tokenize_book_writing`, as inputs. -/
structure BookFactors where
  prose_quality : ℚ
  narrative_innovation : ℚ
  world_building : ℚ
  market_appeal : ℚ
deriving DecidableEq

/-- The `random.uniform` draws of `tokenize_digital_art`, as inputs. -/
structure ArtFactors where
  artistic_skill : ℚ
  concept_originality : ℚ
  technical_execution : ℚ
  commercial_viability : ℚ
deriving DecidableEq

/-- The `random.uniform` draws of `tokenize_video_games`, as inputs. -/
structure GameFactors where
  artistic_quality : ℚ
  audio_production : ℚ
  narrative_depth : ℚ
  gameplay_innovation : ℚ
  technical_execution : ℚ
  commercial_potential : ℚ
deriving DecidableEq

/-- `tokenize_film`'s `value_multiplier` if/elif chain over the bucket name. -/
def filmMultiplier (f : FilmFactors) (name : String) : ℚ :=
  if occursIn "cinematography".toList name.toList then f.technical_innovation
  else if occursIn "narrative".toList name.toList then f.narrative_complexity
  else if occursIn "distribution".toList name.toList then f.commercial_potential
  else 1

/-- `tokenize_animation`'s `value_multiplier` chain. -/
def animationMultiplier (f : AnimationFactors) (name : String) : ℚ :=
  if occursIn "artistry".toList name.toList then f.artistic_style
  else if occursIn "character".toList name.toList then f.character_appeal
  else if occursIn "technical".toList name.toList then f.technical_complexity
  else 1

/-- `tokenize_screenplay`'s `value_multiplier` chain. -/
def screenplayMultiplier (f : ScreenplayFactors) (name : String) : ℚ :=
  if occursIn "dialogue".toList name.toList then f.dialogue_quality
  else if occursIn "plot".toList name.toList then f.plot_originality
  else if occursIn "character".toList name.toList then f.character_depth
  else if occursIn "adaptation".toList name.toList then f.adaptation_potential
  else 1

/-- `tokenize_book_writing`'s `value_multiplier` chain. -/
def bookMultiplier (f : BookFactors) (name : String) : ℚ :=
  if occursIn "prose".toList name.toList then f.prose_quality
  else if occursIn "plot".toList name.toList then f.narrative_innovation
  else if occursIn "world".toList name.toList then f.world_building
  else if occursIn "publishing".toList name.toList then f.market_appeal
  else 1

/-- `tokenize_digital_art`'s `value_multiplier` chain. -/
def artMultiplier (f : ArtFactors) (name : String) : ℚ :=
  if occursIn "composition".toList name.toList then f.artistic_skill
  else if occursIn "concept".toList name.toList then f.concept_originality
  else if occursIn "technical".toList name.toList then f.technical_execution
  else if occursIn "commercial".toList name.toList then f.commercial_viability
  else 1

/-- `tokenize_video_games`'s `value_multiplier` chain. -/
def gameMultiplier (f : GameFactors) (name : String) : ℚ :=
  if occursIn "visual_art".toList name.toList then f.artistic_quality
  else if occursIn "audio_music".toList name.toList then f.audio_production
  else if occursIn "sound_effects".toList name.toList then f.audio_production * (9/10)
  else if occursIn "narrative".toList name.toList then f.narrative_depth
  else if occursIn "gameplay".toList name.toList then f.gameplay_innovation
  else if occursIn "code_programming".toList name.toList then f.technical_execution
  else if occursIn "distribution".toList name.toList then f.commercial_potential
  else 1

def tokenize_film (cid : String) (analysis : Option ℚ) (f : FilmFactors) : TokenAllocation :=
  tokenizeWith cid "film" analysis (filmMultiplier f)

def tokenize_animation (cid : String) (analysis : Option ℚ) (f : AnimationFactors) :
    TokenAllocation :=
  tokenizeWith cid "animation" analysis (animationMultiplier f)

def tokenize_screenplay (cid : String) (analysis : Option ℚ) (f : ScreenplayFactors) :
    TokenAllocation :=
  tokenizeWith cid "screenplay" analysis (screenplayMultiplier f)

def tokenize_book_writing (cid : String) (analysis : Option ℚ) (f : BookFactors) :
    TokenAllocation :=
  tokenizeWith cid "book_writing" analysis (bookMultiplier f)

def tokenize_digital_art (cid : String) (analysis : Option ℚ) (f : ArtFactors) :
    TokenAllocation :=
  tokenizeWith cid "digital_art" analysis (artMultiplier f)

def tokenize_video_games (cid : String) (analysis : Option ℚ) (f : GameFactors) :
    TokenAllocation :=
  tokenizeWith cid "video_games" analysis (gameMultiplier f)

/-- Generic tokenization (`tokenize_generic`): multiplier 1 for every bucket. -/
def tokenize_generic (cid : String) (analysis : Option ℚ) (category : String) :
    TokenAllocation :=
  tokenizeWith cid category analysis (fun _ => 1)

/-- All per-allocation `random.uniform` draws, bundled. -/
structure QualityFactors where
  film : FilmFactors
  animation : AnimationFactors
  screenplay : ScreenplayFactors
  book : BookFactors
  art : ArtFactors
  games : GameFactors
deriving DecidableEq

/-- `get_specialized_tokenizer`: the `tokenizer_map` lookup with the
generic-tokenizer default. -/
def get_specialized_tokenizer (qf : QualityFactors) (category : String) :
    String → Option ℚ → TokenAllocation :=
  if category = "film" then fun cid a => tokenize_film cid a qf.film
  else if category = "animation" then fun cid a => tokenize_animation cid a qf.animation
  else if category = "screenplay" then fun cid a => tokenize_screenplay cid a qf.screenplay
  else if category = "book_writing" then fun cid a => tokenize_book_writing cid a qf.book
  else if category = "digital_art" then fun cid a => tokenize_digital_art cid a qf.art
  else if category = "video_games" then fun cid a => tokenize_video_games cid a qf.games
  else if category = "photography" then fun cid a => tokenize_generic cid a "photography"
  else if category = "music_composition" then fun cid a => tokenize_generic cid a "music_composition"
  else if category = "podcast_audio" then fun cid a => tokenize_generic cid a "podcast_audio"
  else if category = "software_code" then fun cid a => tokenize_generic cid a "software_code"
  else fun cid a => tokenize_generic cid a category

/-- One allocation: dispatch to the category's tokenizer and run it. -/
def allocate (cid category : String) (analysis : Option ℚ) (qf : QualityFactors) :
    TokenAllocation :=
  get_specialized_tokenizer qf category cid analysis

/-- A concrete set of quality factors, used to instantiate universally
quantified theorems at concrete inputs. -/
def exampleFactors : QualityFactors :=
  { film := ⟨1, 1, 1, 1⟩
    animation := ⟨1, 1, 1, 1⟩
    screenplay := ⟨1, 1, 1, 1⟩
    book := ⟨1, 1, 1, 1⟩
    art := ⟨1, 1, 1, 1⟩
    games := ⟨1, 1, 1, 1, 1, 1⟩ }

/-! ## Helper lemmas about the allocator -/

theorem round2_zero : round2 0 = 0 := by with_unfolding_all decide

theorem origFactor_zero : origFactor (some 0) = 0 := by
  unfold origFactor
  simp

theorem tokenizeWith_token_categories (cid cat : String) (a : Option ℚ) (m : String → ℚ) :
    (tokenizeWith cid cat a m).token_categories
      = (get_category_tokenization_structure cat).map
          (fun y => (y.1, mkBucket y.2.percentage y.2.base_value (origFactor a) (m y.1))) := rfl

theorem mkBucket_token_count (pct : ℕ) (base orig mult : ℚ) :
    (mkBucket pct base orig mult).token_count = tokenCount pct := rfl

theorem mkBucket_token_value (pct : ℕ) (base orig mult : ℚ) :
    (mkBucket pct base orig mult).token_value_usd = round2 (base * orig * mult) := rfl

theorem mkBucket_zero_values (pct : ℕ) (base m : ℚ) :
    (mkBucket pct base 0 m).token_value_usd = 0 ∧
    (mkBucket pct base 0 m).total_value_usd = 0 := by
  unfold mkBucket
  simp [mul_zero, zero_mul, round2_zero]

/-- Every branch of `get_specialized_tokenizer` runs the same loop over the
category's structure; `allocate` is therefore always a `tokenizeWith`
instance for the requested category id. -/
theorem allocate_shape (cid cat : String) (a : Option ℚ) (qf : QualityFactors) :
    ∃ m, allocate cid cat a qf = tokenizeWith cid cat a m := by
  unfold allocate get_specialized_tokenizer
  by_cases h1 : cat = "film"
  · exact ⟨filmMultiplier qf.film, by simp [h1, tokenize_film]⟩
  by_cases h2 : cat = "animation"
  · exact ⟨animationMultiplier qf.animation, by simp [h1, h2, tokenize_animation]⟩
  by_cases h3 : cat = "screenplay"
  · exact ⟨screenplayMultiplier qf.screenplay, by simp [h1, h2, h3, tokenize_screenplay]⟩
  by_cases h4 : cat = "book_writing"
  · exact ⟨bookMultiplier qf.book, by simp [h1, h2, h3, h4, tokenize_book_writing]⟩
  by_cases h5 : cat = "digital_art"
  · exact ⟨artMultiplier qf.art, by simp [h1, h2, h3, h4, h5, tokenize_digital_art]⟩
  by_cases h6 : cat = "video_games"
  · exact ⟨gameMultiplier qf.games, by simp [h1, h2, h3, h4, h5, h6, tokenize_video_games]⟩
  by_cases h7 : cat = "photography"
  · exact ⟨fun _ => 1, by simp [h1, h2, h3, h4, h5, h6, h7, tokenize_generic]⟩
  by_cases h8 : cat = "music_composition"
  · exact ⟨fun _ => 1, by simp [h1, h2, h3, h4, h5, h6, h7, h8, tokenize_generic]⟩
  by_cases h9 : cat = "podcast_audio"
  · exact ⟨fun _ => 1, by simp [h1, h2, h3, h4, h5, h6, h7, h8, h9, tokenize_generic]⟩
  by_cases h10 : cat = "software_code"
  · exact ⟨fun _ => 1, by simp [h1, h2, h3, h4, h5, h6, h7, h8, h9, h10, tokenize_generic]⟩
  · exact ⟨fun _ => 1,
      by simp [h1, h2, h3, h4, h5, h6, h7, h8, h9, h10, tokenize_generic]⟩

/-! ## Theorems -/

/-- C1: for every category of the table and every originality score in
[0, 100], the per-bucket token counts of an allocation sum to at most the
total budget of 1000 tokens (they never exceed it), whatever the quality
factors. -/
theorem token_counts_sum_le_budget :
    ∀ cat ∈ CONTENT_CATEGORIES.map Prod.fst, ∀ s : ℚ, 0 ≤ s → s ≤ 100 →
      ∀ (cid : String) (qf : QualityFactors),
        (((allocate cid cat (some s) qf).token_categories.map
            (fun p => p.2.token_count)).sum) ≤ 1000 := by
  intro cat hcat s hs0 hs1 cid qf
  obtain ⟨m, hm⟩ := allocate_shape cid cat (some s) qf
  rw [hm, tokenizeWith_token_categories]
  simp only [CONTENT_CATEGORIES, List.map, List.mem_cons, List.not_mem_nil, or_false] at hcat
  rcases hcat with rfl | rfl | rfl | rfl | rfl | rfl | rfl | rfl | rfl | rfl <;>
    · simp only [List.map_map, Function.comp_def, mkBucket_token_count]
      with_unfolding_all decide

theorem token_counts_sum_le_budget_witness :
    ("film" ∈ CONTENT_CATEGORIES.map Prod.fst) ∧ ((0 : ℚ) ≤ 50) ∧ ((50 : ℚ) ≤ 100) ∧
    (((allocate "x" "film" (some 50) exampleFactors).token_categories.map
        (fun p => p.2.token_count)).sum) ≤ 1000 :=
  ⟨by with_unfolding_all decide, by norm_num, by norm_num,
   token_counts_sum_le_budget "film" (by with_unfolding_all decide) 50
     (by norm_num) (by norm_num) "x" exampleFactors⟩

/-- C5: allocating with originality score 0 stores a zero unit value and a
zero total value in every bucket, for every category string and every value
of the pseudo-random quality factors. -/
theorem zero_originality_zero_values (cid category : String) (qf : QualityFactors) :
    ∀ p ∈ (allocate cid category (some 0) qf).token_categories,
      p.2.token_value_usd = 0 ∧ p.2.total_value_usd = 0 := by
  obtain ⟨m, hm⟩ := allocate_shape cid category (some 0) qf
  rw [hm]
  intro p hp
  rw [tokenizeWith_token_categories, origFactor_zero] at hp
  obtain ⟨y, hy, rfl⟩ := List.mem_map.mp hp
  exact mkBucket_zero_values _ _ _

theorem zero_originality_zero_values_witness :
    (("cinematography_rights", (⟨250, 0, 0, 250, 0, 0, 1⟩ : TokenBucket))
        ∈ (allocate "x" "film" (some 0) exampleFactors).token_categories) ∧
    (⟨250, 0, 0, 250, 0, 0, 1⟩ : TokenBucket).token_value_usd = 0 ∧
    (⟨250, 0, 0, 250, 0, 0, 1⟩ : TokenBucket).total_value_usd = 0 := by
  have hmem : ("cinematography_rights", (⟨250, 0, 0, 250, 0, 0, 1⟩ : TokenBucket))
      ∈ (allocate "x" "film" (some 0) exampleFactors).token_categories := by
    with_unfolding_all decide
  exact ⟨hmem, zero_originality_zero_values "x" "film" exampleFactors _ hmem⟩

/-- Confidence bounds hold on every branch of the result selection. -/
theorem pickResult_confidence_bounds (e : String) (t : List Char)
    (s : List (String × ℚ)) :
    0 ≤ (pickResult e t s).confidence ∧ (pickResult e t s).confidence ≤ 98/100 := by
  match s with
  | [] =>
    constructor <;> norm_num [pickResult]
  | x :: rest =>
    simp only [pickResult]
    by_cases h : (bestOf x rest).2 < 3/10
    · rw [if_pos h]
      constructor <;> norm_num
    · rw [if_neg h]
      constructor
      · have h1 : (3 : ℚ)/10 ≤ (bestOf x rest).2 := not_lt.mp h
        exact le_min (by linarith) (by norm_num)
      · exact min_le_right _ _

/-- C7: every classifier result has confidence in [0, 0.98], and every
bucket of every allocation has a non-negative integer token count. -/
theorem confidence_and_token_count_bounds :
    (∀ fn ext title, 0 ≤ (enhanced_auto_detect_category fn ext title).confidence ∧
        (enhanced_auto_detect_category fn ext title).confidence ≤ 98/100) ∧
    (∀ (cid cat : String) (a : Option ℚ) (qf : QualityFactors),
        ∀ p ∈ (allocate cid cat a qf).token_categories, 0 ≤ p.2.token_count) := by
  constructor
  · intro fn ext title
    exact pickResult_confidence_bounds ext (analyzedText fn title)
      (category_scores (lstripDots (strLower ext)) (analyzedText fn title))
  · intro cid cat a qf p hp
    obtain ⟨m, hm⟩ := allocate_shape cid cat a qf
    rw [hm, tokenizeWith_token_categories] at hp
    obtain ⟨y, hy, rfl⟩ := List.mem_map.mp hp
    rw [mkBucket_token_count]
    unfold tokenCount
    exact Int.natCast_nonneg _

theorem confidence_and_token_count_bounds_witness :
    (0 ≤ (enhanced_auto_detect_category "song.mp3" "mp3" "").confidence ∧
      (enhanced_auto_detect_category "song.mp3" "mp3" "").confidence ≤ 98/100) ∧
    (("cinematography_rights", (⟨250, 0, 0, 250, 0, 0, 1⟩ : TokenBucket))
        ∈ (allocate "x" "film" (some 0) exampleFactors).token_categories) ∧
    (0 : ℤ) ≤ (⟨250, 0, 0, 250, 0, 0, 1⟩ : TokenBucket).token_count := by
  have hmem : ("cinematography_rights", (⟨250, 0, 0, 250, 0, 0, 1⟩ : TokenBucket))
      ∈ (allocate "x" "film" (some 0) exampleFactors).token_categories := by
    with_unfolding_all decide
  exact ⟨confidence_and_token_count_bounds.1 "song.mp3" "mp3" "", hmem,
    confidence_and_token_count_bounds.2 "x" "film" (some 0) exampleFactors _ hmem⟩

/-- C4: an unrecognized category id is silently served with the default
`digital_art` rights structure and the allocation never fails: the dispatch
falls back to the generic tokenizer, the structure lookup substitutes
`digital_art`, and the result still carries the full bucket breakdown. -/
theorem unknown_category_uses_digital_art (cat : String)
    (h : cat ∉ CONTENT_CATEGORIES.map Prod.fst) :
    ∀ (cid : String) (a : Option ℚ) (qf : QualityFactors),
      allocate cid cat a qf = tokenize_generic cid a cat ∧
      get_category_tokenization_structure cat
        = get_category_tokenization_structure "digital_art" ∧
      (allocate cid cat a qf).token_categories.map Prod.fst
        = ["artistic_composition_rights", "concept_originality_rights",
           "technical_execution_rights", "commercial_usage_rights"] := by
  intro cid a qf
  simp only [CONTENT_CATEGORIES, List.map, List.mem_cons, List.not_mem_nil, or_false,
    not_or] at h
  obtain ⟨n1, n2, n3, n4, n5, n6, n7, n8, n9, n10⟩ := h
  have hdisp : allocate cid cat a qf = tokenize_generic cid a cat := by
    unfold allocate get_specialized_tokenizer
    rw [if_neg n1, if_neg n2, if_neg n3, if_neg n4, if_neg n5, if_neg n6, if_neg n7,
      if_neg n8, if_neg n9, if_neg n10]
  have b1 : (("film" : String) == cat) = false := beq_eq_false_iff_ne.mpr (Ne.symm n1)
  have b2 : (("animation" : String) == cat) = false := beq_eq_false_iff_ne.mpr (Ne.symm n2)
  have b3 : (("screenplay" : String) == cat) = false := beq_eq_false_iff_ne.mpr (Ne.symm n3)
  have b4 : (("book_writing" : String) == cat) = false := beq_eq_false_iff_ne.mpr (Ne.symm n4)
  have b5 : (("digital_art" : String) == cat) = false := beq_eq_false_iff_ne.mpr (Ne.symm n5)
  have b6 : (("photography" : String) == cat) = false := beq_eq_false_iff_ne.mpr (Ne.symm n6)
  have b7 : (("music_composition" : String) == cat) = false :=
    beq_eq_false_iff_ne.mpr (Ne.symm n7)
  have b8 : (("podcast_audio" : String) == cat) = false := beq_eq_false_iff_ne.mpr (Ne.symm n8)
  have b9 : (("software_code" : String) == cat) = false := beq_eq_false_iff_ne.mpr (Ne.symm n9)
  have b10 : (("video_games" : String) == cat) = false := beq_eq_false_iff_ne.mpr (Ne.symm n10)
  have hstruct : get_category_tokenization_structure cat
      = get_category_tokenization_structure "digital_art" := by
    unfold get_category_tokenization_structure
    simp only [CONTENT_CATEGORIES, List.find?, b1, b2, b3, b4, b5, b6, b7, b8, b9, b10]
    with_unfolding_all decide
  refine ⟨hdisp, hstruct, ?_⟩
  rw [hdisp]
  show (tokenizeWith cid cat a (fun _ => 1)).token_categories.map Prod.fst = _
  rw [tokenizeWith_token_categories, hstruct]
  simp only [List.map_map, Function.comp_def]
  with_unfolding_all decide

theorem unknown_category_uses_digital_art_witness :
    allocate "x" "music" (some 90) exampleFactors
        = tokenize_generic "x" (some 90) "music" ∧
      get_category_tokenization_structure "music"
        = get_category_tokenization_structure "digital_art" ∧
      (allocate "x" "music" (some 90) exampleFactors).token_categories.map Prod.fst
        = ["artistic_composition_rights", "concept_originality_rights",
           "technical_execution_rights", "commercial_usage_rights"] :=
  unknown_category_uses_digital_art "music" (by with_unfolding_all decide)
    "x" (some 90) exampleFactors

/-- C6: classifying `filename="my_screenplay_draft.pdf"`, `extension="pdf"`,
`title="Act One Dialogue"` yields category `"screenplay"` with the keywords
`"screenplay"`, `"dialogue"`, `"act"` detected, the extension matching the
screenplay pattern's file types, confidence ≥ 0.3 and the keyword-analysis
method (source string `'enhanced_keyword_analysis'`). -/
theorem screenplay_scenario :
    (enhanced_auto_detect_category "my_screenplay_draft.pdf" "pdf" "Act One Dialogue").category
      = "screenplay" ∧
    (enhanced_auto_detect_category "my_screenplay_draft.pdf" "pdf" "Act One Dialogue").method
      = DetectionMethod.enhanced_keyword_analysis ∧
    (3/10 : ℚ) ≤
      (enhanced_auto_detect_category "my_screenplay_draft.pdf" "pdf" "Act One Dialogue").confidence ∧
    (enhanced_auto_detect_category "my_screenplay_draft.pdf" "pdf" "Act One Dialogue").detected_keywords
      = ["screenplay", "dialogue", "act"] ∧
    "pdf" ∈ screenplayPattern.file_types := by
  with_unfolding_all decide

/-- C10: the classifier can return an id (here `"music"`, for
`filename="song.mp3"`) that is not a key of the allocator's
`CONTENT_CATEGORIES` table, so allocating under that id silently uses the
`digital_art` rights structure. -/
theorem classifier_id_outside_allocator_table :
    (enhanced_auto_detect_category "song.mp3" "mp3" "").category = "music" ∧
    decide ("music" ∈ CONTENT_CATEGORIES.map Prod.fst) = false ∧
    get_category_tokenization_structure "music"
      = get_category_tokenization_structure "digital_art" ∧
    (allocate "c" "music" (some 90) exampleFactors).token_categories.map Prod.fst
      = ["artistic_composition_rights", "concept_originality_rights",
         "technical_execution_rights", "commercial_usage_rights"] := by
  with_unfolding_all decide

/-- The scores list is built over the static nine-entry pattern table, so it
is never empty. -/
theorem category_scores_cons (e : String) (t : List Char) :
    ∃ x xs, category_scores e t = x :: xs := ⟨_, _, rfl⟩

/-- On a non-empty scores list the result method is keyword analysis or the
extension fallback, never the default fallback. -/
theorem pickResult_cons_method (e : String) (t : List Char) (x : String × ℚ)
    (xs : List (String × ℚ)) :
    (pickResult e t (x :: xs)).method = DetectionMethod.enhanced_keyword_analysis ∨
    (pickResult e t (x :: xs)).method = DetectionMethod.file_extension_fallback := by
  simp only [pickResult]
  by_cases h : (bestOf x xs).2 < 3/10
  · rw [if_pos h]
    right
    rfl
  · rw [if_neg h]
    left
    rfl

/-- C2 (amended): classifying `"clip.xyz"` (unknown extension, no keywords)
returns the default category `digital_art`, but with confidence 0.85 and
method `file_extension_fallback` (the low-confidence extension fallback).
The `default_fallback` branch (confidence 0.75) is unreachable: the keyword
table is static and non-empty, every category always receives a (possibly
zero) score, so every classification uses keyword analysis or the extension
fallback. -/
theorem clipXyz_extension_fallback :
    ((enhanced_auto_detect_category "clip.xyz" "xyz" "").category = "digital_art" ∧
     (enhanced_auto_detect_category "clip.xyz" "xyz" "").confidence = 85/100 ∧
     (enhanced_auto_detect_category "clip.xyz" "xyz" "").method
        = DetectionMethod.file_extension_fallback) ∧
    ∀ fn ext title,
      (enhanced_auto_detect_category fn ext title).method
          = DetectionMethod.enhanced_keyword_analysis ∨
      (enhanced_auto_detect_category fn ext title).method
          = DetectionMethod.file_extension_fallback := by
  refine ⟨by with_unfolding_all decide, ?_⟩
  intro fn ext title
  obtain ⟨x, xs, hx⟩ :=
    category_scores_cons (lstripDots (strLower ext)) (analyzedText fn title)
  have hres : enhanced_auto_detect_category fn ext title
      = pickResult ext (analyzedText fn title) (x :: xs) := by
    show pickResult ext (analyzedText fn title)
        (category_scores (lstripDots (strLower ext)) (analyzedText fn title))
      = pickResult ext (analyzedText fn title) (x :: xs)
    rw [hx]
  rw [hres]
  exact pickResult_cons_method _ _ _ _

/-- C2 counterexample: classifying `"clip.xyz"` (unknown extension, no
keywords) returns confidence 0.85 and method `file_extension_fallback`,
not confidence 0.75 and `default_fallback` as the claim states. -/
theorem clipXyz_not_default_fallback :
    (enhanced_auto_detect_category "clip.xyz" "xyz" "").category = "digital_art" ∧
    (enhanced_auto_detect_category "clip.xyz" "xyz" "").confidence = 85/100 ∧
    (enhanced_auto_detect_category "clip.xyz" "xyz" "").method
      = DetectionMethod.file_extension_fallback ∧
    decide ((enhanced_auto_detect_category "clip.xyz" "xyz" "").confidence = 75/100) = false ∧
    decide ((enhanced_auto_detect_category "clip.xyz" "xyz" "").method
      = DetectionMethod.default_fallback) = false := by
  with_unfolding_all decide

/-- C3 counterexample: `"mp4"` is in the static `animation` category's
`file_types` and the filename `"aaaa.mp4"` contains no keyword of any
pattern, yet the classifier returns `"film"`, not `"animation"` (the film
pattern also lists mp4 and comes first in table order). -/
theorem animation_mp4_detects_film :
    "mp4" ∈ (((CONTENT_CATEGORIES.find? (fun c => c.1 == "animation")).map
        (fun c => c.2.file_types)).getD []) ∧
    (keyword_patterns.all (fun p => p.keywords.all
        (fun kw => !(occursIn kw.toList (analyzedText "aaaa.mp4" ""))))) = true ∧
    (enhanced_auto_detect_category "aaaa.mp4" "mp4" "").category = "film" ∧
    decide ((enhanced_auto_detect_category "aaaa.mp4" "mp4" "").category = "animation")
      = false := by
  with_unfolding_all decide

/-- C8 counterexample: for `allocate("id1", "film", 90)` with
technical-innovation factor 0.7771 (inside the drawn range [0.6, 0.9]), the
stored `cinematography_rights` unit value is `round(60·0.9·0.7771, 2)` =
41.96, not `60·0.9·0.7771` = 41.9634 as the claim states. -/
theorem cinematography_value_rounded_cex :
    ((tokenize_film "id1" (some 90) ⟨4/5, 4/5, 7771/10000, 4/5⟩).token_categories.find?
        (fun p => p.1 == "cinematography_rights")).map
        (fun p => (p.2.token_count, p.2.token_value_usd))
      = some (250, 1049/25) ∧
    decide ((1049/25 : ℚ) = 60 * (9/10) * (7771/10000)) = false ∧
    (6/10 : ℚ) ≤ 7771/10000 ∧ (7771/10000 : ℚ) ≤ 9/10 := by
  with_unfolding_all decide

/-- C8 (amended): for `allocate("id1", "film", 90)` the
`cinematography_rights` bucket gets `token_count = ⌊1000·25/100⌋ = 250` and
a stored unit value of `60.0 × 0.9 × technical_innovation_factor` rounded to
two decimal places (Python `round(·, 2)`), for every value of the drawn
quality factors. -/
theorem cinematography_allocation (f : FilmFactors) :
    origFactor (some 90) = 9/10 ∧
    ((tokenize_film "id1" (some 90) f).token_categories.find?
        (fun p => p.1 == "cinematography_rights")).map
        (fun p => (p.2.token_count, p.2.token_value_usd))
      = some (250, round2 (60 * origFactor (some 90) * f.technical_innovation)) := by
  exact ⟨by with_unfolding_all decide, rfl⟩

/-- C9: the classifier is deterministic — two calls on equal filenames,
extensions and titles produce identical results. -/
theorem classifier_deterministic (f₁ f₂ e₁ e₂ t₁ t₂ : String)
    (hf : f₁ = f₂) (he : e₁ = e₂) (ht : t₁ = t₂) :
    enhanced_auto_detect_category f₁ e₁ t₁ = enhanced_auto_detect_category f₂ e₂ t₂ := by
  rw [hf, he, ht]

theorem classifier_deterministic_witness :
    ("song.mp3" : String) = "song.mp3" ∧ ("mp3" : String) = "mp3" ∧ ("" : String) = "" ∧
    enhanced_auto_detect_category "song.mp3" "mp3" ""
      = enhanced_auto_detect_category "song.mp3" "mp3" "" :=
  ⟨rfl, rfl, rfl,
    classifier_deterministic "song.mp3" "song.mp3" "mp3" "mp3" "" "" rfl rfl rfl⟩

/-- When no keyword occurs in the text, the keyword loop leaves its
accumulator unchanged. -/
theorem foldl_kw_no_match (text : List Char) (kws : List String)
    (h : ∀ kw ∈ kws, occursIn kw.toList text = false) (acc : ℕ × ℚ) :
    kws.foldl (fun acc kw =>
      if occursIn kw.toList text then (acc.1 + 1, acc.2 + (1/10 + (kw.length : ℚ) * (1/100)))
      else acc) acc = acc := by
  induction kws generalizing acc with
  | nil => rfl
  | cons k ks ih =>
    rw [List.foldl_cons]
    have hk := h k (List.mem_cons_self k ks)
    rw [if_neg (by rw [hk]; exact Bool.false_ne_true)]
    exact ih (fun kw hkw => h kw (List.mem_cons_of_mem k hkw)) acc

/-- With no keyword matches a pattern's score is exactly the extension base
score: 0.4 on an extension match, otherwise 0. -/
theorem scoreFor_no_match (e : String) (text : List Char) (p : KeywordPattern)
    (h : ∀ kw ∈ p.keywords, occursIn kw.toList text = false) :
    scoreFor e text p = if p.file_types.contains e then 2/5 else 0 := by
  simp only [scoreFor]
  rw [foldl_kw_no_match text p.keywords h]
  simp only [lt_self_iff_false, false_and, if_false]
  by_cases hc : p.file_types.contains e = true
  · rw [if_pos hc]
    exact min_eq_left (by norm_num)
  · rw [if_neg hc]
    exact min_eq_left (by norm_num)

/-- The first-maximum selection returns an element of the list. -/
theorem bestOf_mem (x : String × ℚ) (l : List (String × ℚ)) : bestOf x l ∈ x :: l := by
  induction l generalizing x with
  | nil => exact List.mem_singleton.mpr rfl
  | cons y ys ih =>
    have h : bestOf x (y :: ys) = bestOf (if x.2 < y.2 then y else x) ys := rfl
    rw [h]
    rcases List.mem_cons.mp (ih (if x.2 < y.2 then y else x)) with h1 | h1
    · rw [h1]
      by_cases hxy : x.2 < y.2
      · rw [if_pos hxy]
        exact List.mem_cons_of_mem x (List.mem_cons_self y ys)
      · rw [if_neg hxy]
        exact List.mem_cons_self x (y :: ys)
    · exact List.mem_cons_of_mem x (List.mem_cons_of_mem y h1)

/-- The first-maximum selection dominates every element of the list. -/
theorem bestOf_ge (x : String × ℚ) (l : List (String × ℚ)) :
    ∀ y ∈ x :: l, y.2 ≤ (bestOf x l).2 := by
  induction l generalizing x with
  | nil =>
    intro y hy
    rw [List.mem_singleton] at hy
    rw [hy]
    exact le_refl _
  | cons z zs ih =>
    intro y hy
    have h : bestOf x (z :: zs) = bestOf (if x.2 < z.2 then z else x) zs := rfl
    rw [h]
    have hx2 : x.2 ≤ (if x.2 < z.2 then z else x).2 := by
      by_cases hxz : x.2 < z.2
      · rw [if_pos hxz]; exact le_of_lt hxz
      · rw [if_neg hxz]
    have hz2 : z.2 ≤ (if x.2 < z.2 then z else x).2 := by
      by_cases hxz : x.2 < z.2
      · rw [if_pos hxz]
      · rw [if_neg hxz]; exact not_lt.mp hxz
    have hhead : (if x.2 < z.2 then z else x).2
        ≤ (bestOf (if x.2 < z.2 then z else x) zs).2 :=
      ih (if x.2 < z.2 then z else x) _ (List.mem_cons_self _ _)
    rcases List.mem_cons.mp hy with h1 | h1
    · rw [h1]; exact le_trans hx2 hhead
    · rcases List.mem_cons.mp h1 with h2 | h2
      · rw [h2]; exact le_trans hz2 hhead
      · exact ih _ _ (List.mem_cons_of_mem _ h2)

/-- Every extension in the pattern table is already lowercase and dot-free,
so classifier normalization leaves it unchanged. -/
theorem pattern_extension_fixed :
    keyword_patterns.all (fun p => p.file_types.all
      (fun s => lstripDots (strLower s) == s)) = true := by
  with_unfolding_all decide

/-- C3 (amended): for every category P in the classifier's keyword-pattern
table (not the allocator's static table) and every extension e in
P.file_types, classifying a no-keyword filename with extension e gives P a
score of exactly 0.4 from the extension match alone, and the classifier
returns some pattern id whose file types contain e (the winner by table
order), with confidence 0.45 and the keyword-analysis method — but not
necessarily P (or the static table's category) itself. -/
theorem extension_only_detection (p : KeywordPattern) (hp : p ∈ keyword_patterns)
    (e : String) (he : e ∈ p.file_types) (fn title : String)
    (hno : ∀ q ∈ keyword_patterns, ∀ kw ∈ q.keywords,
        occursIn kw.toList (analyzedText fn title) = false) :
    (p.id, (2/5 : ℚ)) ∈ (enhanced_auto_detect_category fn e title).all_scores ∧
    (∃ q ∈ keyword_patterns,
        (enhanced_auto_detect_category fn e title).category = q.id ∧
        q.file_types.contains (lstripDots (strLower e)) = true) ∧
    (enhanced_auto_detect_category fn e title).method
      = DetectionMethod.enhanced_keyword_analysis ∧
    (enhanced_auto_detect_category fn e title).confidence = 9/20 := by
  have hfix : lstripDots (strLower e) = e :=
    eq_of_beq (List.all_eq_true.mp
      (List.all_eq_true.mp pattern_extension_fixed p hp) e he)
  have hcontains : p.file_types.contains (lstripDots (strLower e)) = true := by
    rw [hfix]
    exact List.elem_eq_true_of_mem he
  have hpscore : scoreFor (lstripDots (strLower e)) (analyzedText fn title) p = 2/5 := by
    rw [scoreFor_no_match _ _ p (hno p hp), if_pos hcontains]
  have hpmem : (p.id, (2/5 : ℚ))
      ∈ category_scores (lstripDots (strLower e)) (analyzedText fn title) := by
    unfold category_scores
    exact List.mem_map.mpr ⟨p, hp, by rw [hpscore]⟩
  obtain ⟨x, xs, hx⟩ :=
    category_scores_cons (lstripDots (strLower e)) (analyzedText fn title)
  have hbest_ge : (2/5 : ℚ) ≤ (bestOf x xs).2 := bestOf_ge x xs _ (hx ▸ hpmem)
  have hbmem : bestOf x xs
      ∈ category_scores (lstripDots (strLower e)) (analyzedText fn title) := by
    rw [hx]
    exact bestOf_mem x xs
  rw [category_scores] at hbmem
  obtain ⟨q, hq, hbq⟩ := List.mem_map.mp hbmem
  have hqscore : scoreFor (lstripDots (strLower e)) (analyzedText fn title) q
      = if q.file_types.contains (lstripDots (strLower e)) then 2/5 else 0 :=
    scoreFor_no_match _ _ q (hno q hq)
  have hqcont : q.file_types.contains (lstripDots (strLower e)) = true := by
    by_contra hqc
    rw [← hbq] at hbest_ge
    have : (2/5 : ℚ) ≤ scoreFor (lstripDots (strLower e)) (analyzedText fn title) q :=
      hbest_ge
    rw [hqscore, if_neg hqc] at this
    norm_num at this
  have hbval : (bestOf x xs).2 = 2/5 := by
    rw [← hbq]
    show scoreFor (lstripDots (strLower e)) (analyzedText fn title) q = 2/5
    rw [hqscore, if_pos hqcont]
  have hres : enhanced_auto_detect_category fn e title
      = pickResult e (analyzedText fn title) (x :: xs) := by
    show pickResult e (analyzedText fn title)
        (category_scores (lstripDots (strLower e)) (analyzedText fn title))
      = pickResult e (analyzedText fn title) (x :: xs)
    rw [hx]
  have hnotlt : ¬ (bestOf x xs).2 < 3/10 := by
    rw [hbval]
    norm_num
  have hpickc : (pickResult e (analyzedText fn title) (x :: xs)).category
      = (bestOf x xs).1 := by
    simp only [pickResult]
    rw [if_neg hnotlt]
  have hpickconf : (pickResult e (analyzedText fn title) (x :: xs)).confidence
      = min ((bestOf x xs).2 + 1/20) (98/100) := by
    simp only [pickResult]
    rw [if_neg hnotlt]
  have hpickm : (pickResult e (analyzedText fn title) (x :: xs)).method
      = DetectionMethod.enhanced_keyword_analysis := by
    simp only [pickResult]
    rw [if_neg hnotlt]
  have hpicks : (pickResult e (analyzedText fn title) (x :: xs)).all_scores
      = x :: xs := by
    simp only [pickResult]
    rw [if_neg hnotlt]
  refine ⟨?_, ⟨q, hq, ?_, hqcont⟩, ?_, ?_⟩
  · rw [hres, hpicks]
    exact hx ▸ hpmem
  · rw [hres, hpickc, ← hbq]
  · rw [hres]
    exact hpickm
  · rw [hres, hpickconf, hbval]
    rw [min_eq_left (by norm_num)]
    norm_num

theorem extension_only_detection_witness :
    (screenplayPattern ∈ keyword_patterns) ∧ ("pdf" ∈ screenplayPattern.file_types) ∧
    ((screenplayPattern.id, (2/5 : ℚ))
        ∈ (enhanced_auto_detect_category "x.pdf" "pdf" "").all_scores ∧
      (∃ q ∈ keyword_patterns,
          (enhanced_auto_detect_category "x.pdf" "pdf" "").category = q.id ∧
          q.file_types.contains (lstripDots (strLower "pdf")) = true) ∧
      (enhanced_auto_detect_category "x.pdf" "pdf" "").method
        = DetectionMethod.enhanced_keyword_analysis ∧
      (enhanced_auto_detect_category "x.pdf" "pdf" "").confidence = 9/20) :=
  ⟨by with_unfolding_all decide, by with_unfolding_all decide,
   extension_only_detection screenplayPattern (by with_unfolding_all decide)
     "pdf" (by with_unfolding_all decide) "x.pdf" "" (by with_unfolding_all decide)⟩

end BigIpMachine
